import Mathlib

/-
  Verification of the cs_translate chat-log translator (bin/cs.translate.js).

  The embedding below translates the relevant parts of the single source
  file into Lean:

  * the chat-line regex match of handleLine (line 454) is embedded as a
    specialised backtracking matcher with JavaScript leftmost-greedy
    semantics for the pattern  \[(CT|T|ALL)\]\s+([^:]+):\s(.+)  ;
  * smartTranslate (lines 368-392) is embedded as a pure function over an
    explicit external-API oracle, returning both its TranslationResult and
    the chronological list of observable events (API calls, console
    warnings, printed lines);
  * autoTranslateToConsole (lines 413-432) and handleLine (lines 453-470)
    are embedded on top of it;
  * the fs.watchFile tailing loop of start (lines 537-553) is embedded as
    one notification-cycle step over the file content (one list element
    per byte) and the previous stat size, which is the tailer's only
    last-known-size state; readline's line splitting (including its
    documented emission of a final unterminated segment when the input
    stream ends) is embedded by splitBreaks/emitLines.
-/

/-- Character class of the JavaScript regex escape \s (and of the
whitespace trimmed by String.prototype.trim). -/
def jsWhitespaceChar (c : Char) : Bool :=
  let n := c.toNat
  n == 0x20 || n == 0x09 || n == 0x0A || n == 0x0B || n == 0x0C || n == 0x0D ||
  n == 0xA0 || n == 0x1680 || (0x2000 ≤ n && n ≤ 0x200A) ||
  n == 0x2028 || n == 0x2029 || n == 0x202F || n == 0x205F || n == 0x3000 ||
  n == 0xFEFF

/-- Character class of the JavaScript regex `.` (any char except a line
terminator). -/
def dotChar (c : Char) : Bool :=
  let n := c.toNat
  !(n == 0x0A || n == 0x0D || n == 0x2028 || n == 0x2029)

/-- JavaScript String.prototype.trim on an explicit character list. -/
def jsTrimList (cs : List Char) : List Char :=
  ((cs.dropWhile jsWhitespaceChar).reverse.dropWhile jsWhitespaceChar).reverse

/-- JavaScript String.prototype.trim, producing a String. -/
def jsTrimStr (cs : List Char) : String :=
  ⟨jsTrimList cs⟩

/-- The (CT|T|ALL)\] part of the pattern: the team alternation followed by
the closing bracket.  The three alternatives start with distinct
characters, so JavaScript's ordered alternation is deterministic here. -/
def parseTeam : List Char → Option (String × List Char)
  | 'C' :: 'T' :: ']' :: r => some ("CT", r)
  | 'T' :: ']' :: r => some ("T", r)
  | 'A' :: 'L' :: 'L' :: ']' :: r => some ("ALL", r)
  | _ => none

/-- The `:\s(.+)` tail of the pattern, applied to the characters right
after the consumed `:` — one whitespace character, then a greedy
non-empty run of `.`-matchable characters (the message capture). -/
def afterColon : List Char → Option (List Char)
  | c :: v =>
      if jsWhitespaceChar c then
        let m := v.takeWhile dotChar
        if m.isEmpty then none else some m
      else none
  | [] => none

/-- The `\s+([^:]+):\s(.+)` part of the pattern, applied right after the
closing bracket, with JavaScript leftmost-greedy backtracking semantics:
`\s+` first takes the maximal whitespace run; `[^:]+` then runs to the
first `:`; if the first non-whitespace character is itself `:`, the only
viable backtrack gives `\s+` one character less, making the sender
capture a single whitespace character (possible only when the run has at
least two characters).  Returns the raw sender and message captures. -/
def matchAfterTeam (r : List Char) : Option (List Char × List Char) :=
  let w := (r.takeWhile jsWhitespaceChar).length
  if w = 0 then none
  else
    match r.drop w with
    | [] => none
    | c :: t =>
      if c = ':' then
        if 2 ≤ w then (afterColon t).map (fun m => ([r.getD (w - 1) ' '], m))
        else none
      else
        let p := (c :: t).takeWhile (fun d => d ≠ ':')
        match (c :: t).drop p.length with
        | ':' :: u => (afterColon u).map (fun m => (p, m))
        | _ => none

/-- Attempt to match the whole pattern at the start of the given
characters: `\[` then the team alternation, then the tail. -/
def matchAt : List Char → Option (String × List Char × List Char)
  | '[' :: rest =>
      match parseTeam rest with
      | some (team, r) => (matchAfterTeam r).map (fun pm => (team, pm.1, pm.2))
      | none => none
  | _ => none

/-- JavaScript String.prototype.match without the g flag: the leftmost
position at which the pattern matches wins. -/
def findMatch : List Char → Option (String × List Char × List Char)
  | [] => none
  | c :: rest =>
      match matchAt (c :: rest) with
      | some r => some r
      | none => findMatch rest

/-- ChatEvent: the structured record handleLine builds from one matching
raw line (team capture as matched; sender and message trimmed). -/
structure ChatEvent where
  team : String
  sender : String
  message : String
deriving DecidableEq

/-- Line classification as performed by handleLine lines 454-459: regex
match, then trim of the sender and message captures.  The source has no
further validation — in particular no emptiness check on the trimmed
fields. -/
def classify (line : String) : Option ChatEvent :=
  match findMatch line.toList with
  | none => none
  | some (t, p, m) => some ⟨t, jsTrimStr p, jsTrimStr m⟩

/-- Result shape of the external translate capability
`(text, {to, from?}) -> { text, from: { language: { iso } } }`; the
nested optional chain `res.from?.language?.iso` is embedded as an
optional iso field. -/
structure ApiRes where
  text : String
  fromIso : Option String
deriving DecidableEq

/-- The external asynchronous translate capability, as an explicit
oracle: input text, target language, and optional forced source
language, returning either a result or a thrown/rejected error
message. -/
def Api : Type := String → String → Option String → Except String ApiRes

/-- TranslationResult as consumed by the pipeline: the translated text,
the reported `from.language.iso`, and the `__forcedFrom` marker set by
the Cyrillic retry. -/
structure TransResult where
  text : String
  fromIso : Option String
  forcedFrom : Option String
deriving DecidableEq

/-- Observable events of one handled line, in chronological order:
the raw chat line printed by handleLine, an invocation of the external
translate capability, the printed translation line, and a logged
warning. -/
inductive Ev where
  | printChat (team sender message : String)
  | apiCall (text toLang : String) (forcedFrom : Option String)
  | printTrans (team sender langReadable targetUpper text : String)
  | logWarn (msg : String)
deriving DecidableEq

/-- Recogniser for the printed-translation-line event. -/
def isPrintTrans : Ev → Bool
  | Ev.printTrans _ _ _ _ _ => true
  | _ => false

/-- JavaScript String.prototype.toLowerCase, embedded character-wise
(the language codes and targets involved are ASCII). -/
def jsToLower (s : String) : String := ⟨s.data.map Char.toLower⟩

/-- JavaScript String.prototype.toUpperCase, embedded character-wise. -/
def jsToUpper (s : String) : String := ⟨s.data.map Char.toUpper⟩

/-- JavaScript `o || d` where o is a possibly-absent string (absent and
the empty string are both falsy). -/
def jsOrOpt (o : Option String) (d : String) : String :=
  match o with
  | some s => if s = "" then d else s
  | none => d

/-- JavaScript `s || d` on strings (the empty string is falsy). -/
def jsOrS (s d : String) : String :=
  if s = "" then d else s

/-- The PREFER_RU_FOR_CYRILLIC switch (source line 344, true). -/
def PREFER_RU_FOR_CYRILLIC : Bool := true

/-- The AUTO_TRANSLATE switch (source line 328, true). -/
def AUTO_TRANSLATE : Bool := true

/-- The AUTO_TRANSLATE_TARGET constant (source line 334). -/
def AUTO_TRANSLATE_TARGET : String := "en"

/-- CYRILLIC_REGEX.test: does the text contain a character of the
Cyrillic Unicode block U+0400 to U+04FF (source line 345)? -/
def cyrillicTest (text : String) : Bool :=
  text.toList.any (fun c => 0x400 ≤ c.toNat && c.toNat ≤ 0x4FF)

/-- LANG_MAP from source lines 298-322: ISO code to human-readable
language name. -/
def LANG_MAP : List (String × String) := [
  ("af","Afrikaans"), ("sq","Albanian"), ("am","Amharic"), ("ar","Arabic"),
  ("hy","Armenian"), ("az","Azerbaijani"), ("eu","Basque"), ("be","Belarusian"),
  ("bn","Bengali"), ("bs","Bosnian"), ("bg","Bulgarian"), ("ca","Catalan"),
  ("ceb","Cebuano"), ("ny","Chichewa"), ("zh","Chinese"),
  ("zh_cn","Chinese (Simplified)"), ("zh_tw","Chinese (Traditional)"),
  ("co","Corsican"), ("hr","Croatian"), ("cs","Czech"), ("da","Danish"),
  ("nl","Dutch"), ("en","English"), ("eo","Esperanto"), ("et","Estonian"),
  ("tl","Filipino"), ("fi","Finnish"), ("fr","French"), ("fy","Frisian"),
  ("gl","Galician"), ("ka","Georgian"), ("de","German"), ("el","Greek"),
  ("gu","Gujarati"), ("ht","Haitian Creole"), ("ha","Hausa"),
  ("haw","Hawaiian"), ("he","Hebrew"), ("hi","Hindi"), ("hmn","Hmong"),
  ("hu","Hungarian"), ("is","Icelandic"), ("ig","Igbo"), ("id","Indonesian"),
  ("ga","Irish"), ("it","Italian"), ("ja","Japanese"), ("jw","Javanese"),
  ("kn","Kannada"), ("kk","Kazakh"), ("km","Khmer"), ("rw","Kinyarwanda"),
  ("ko","Korean"), ("ku","Kurdish (Kurmanji)"), ("ky","Kyrgyz"), ("lo","Lao"),
  ("la","Latin"), ("lv","Latvian"), ("lt","Lithuanian"), ("lb","Luxembourgish"),
  ("mk","Macedonian"), ("mg","Malagasy"), ("ms","Malay"), ("ml","Malayalam"),
  ("mt","Maltese"), ("mi","Maori"), ("mr","Marathi"), ("mn","Mongolian"),
  ("my","Myanmar (Burmese)"), ("ne","Nepali"), ("no","Norwegian"),
  ("or","Odia (Oriya)"), ("ps","Pashto"), ("fa","Persian"), ("pl","Polish"),
  ("pt","Portuguese"), ("pa","Punjabi"), ("ro","Romanian"), ("ru","Russian"),
  ("sm","Samoan"), ("gd","Scots Gaelic"), ("sr","Serbian"), ("st","Sesotho"),
  ("sn","Shona"), ("sd","Sindhi"), ("si","Sinhala"), ("sk","Slovak"),
  ("sl","Slovenian"), ("so","Somali"), ("es","Spanish"), ("su","Sundanese"),
  ("sw","Swahili"), ("sv","Swedish"), ("tg","Tajik"), ("ta","Tamil"),
  ("tt","Tatar"), ("te","Telugu"), ("th","Thai"), ("tr","Turkish"),
  ("tk","Turkmen"), ("uk","Ukrainian"), ("ur","Urdu"), ("ug","Uyghur"),
  ("uz","Uzbek"), ("vi","Vietnamese"), ("cy","Welsh"), ("xh","Xhosa"),
  ("yi","Yiddish"), ("yo","Yoruba"), ("zu","Zulu")]

/-- langName from source lines 350-353:
`LANG_MAP[key] || key.toUpperCase() || "UNKNOWN"` on the lowercased
code. -/
def langName (iso : String) : String :=
  let key := jsToLower iso
  jsOrOpt (LANG_MAP.lookup key) (jsOrS (jsToUpper key) "UNKNOWN")

/-- smartTranslate from source lines 368-392, over the explicit API
oracle.  Returns the TranslationResult together with the chronological
list of its observable events (API invocations and the warning printed
by the catch block).  Totality of this function embeds the
never-throws-to-the-caller contract. -/
def smartTranslate (api : Api) (text toLang : String) : TransResult × List Ev :=
  match api text toLang none with
  | Except.error e =>
      (⟨text, some "unknown", none⟩,
       [Ev.apiCall text toLang none, Ev.logWarn ("Translation failed: " ++ e)])
  | Except.ok res =>
      if PREFER_RU_FOR_CYRILLIC && cyrillicTest text &&
          (jsToLower (res.fromIso.getD "") != "ru") then
        match api text toLang (some "ru") with
        | Except.ok forced =>
            (⟨forced.text, forced.fromIso, some "ru"⟩,
             [Ev.apiCall text toLang none, Ev.apiCall text toLang (some "ru")])
        | Except.error _ =>
            (⟨res.text, res.fromIso, none⟩,
             [Ev.apiCall text toLang none, Ev.apiCall text toLang (some "ru")])
      else
        (⟨res.text, res.fromIso, none⟩, [Ev.apiCall text toLang none])

/-- The resolved source-language code of lines 399 and 418:
`(res.__forcedFrom || res.from?.language?.iso || "unknown").toLowerCase()`. -/
def resolvedIso (res : TransResult) : String :=
  jsToLower (jsOrOpt res.forcedFrom (jsOrOpt res.fromIso "unknown"))

/-- originalLangReadable from source lines 398-401. -/
def originalLangReadable (res : TransResult) : String :=
  langName (resolvedIso res)

/-- autoTranslateToConsole from source lines 413-432, returning the
chronological list of its observable events.  The target language is the
configured AUTO_TRANSLATE_TARGET, taken as a parameter. -/
def autoTranslateToConsole (api : Api) (team sender message target : String) :
    List Ev :=
  if !AUTO_TRANSLATE then []
  else if message = "" then []
  else
    let st := smartTranslate api message target
    if resolvedIso st.1 = jsToLower target then st.2
    else
      st.2 ++ [Ev.printTrans team sender (originalLangReadable st.1)
        (jsToUpper target) st.1.text]

/-- handleLine from source lines 453-470: regex classification, then the
raw chat line printed synchronously, then the translation dispatched. -/
def handleLine (api : Api) (target line : String) : List Ev :=
  match classify line with
  | none => []
  | some ev =>
      Ev.printChat ev.team ev.sender ev.message ::
        autoTranslateToConsole api ev.team ev.sender ev.message target

/-- TailState: the tailer's last known file size.  In the source this is
fs.watchFile's previous stat (`prev.size`), the only position state of
the watch loop; after every notification the next cycle's previous stat
is the current one. -/
structure TailState where
  lastKnownSize : Nat
deriving DecidableEq

/-- Outcome of one notification cycle: the state used by the next cycle,
the byte-range read request passed to fs.createReadStream (start and
inclusive end), if any, and the lines handed to the per-line callback in
order. -/
structure CycleResult where
  newState : TailState
  readReq : Option (Nat × Nat)
  lines : List (List Char)
deriving DecidableEq

/-- The bytes fs.createReadStream delivers for
`{ start: startPos, end: endPos }`: positions startPos to endPos
inclusive, clipped to the end of the file content. -/
def readRange (startPos endPos : Nat) (content : List Char) : List Char :=
  (content.drop startPos).take (endPos + 1 - startPos)

/-- Line splitting of readline.createInterface: a line break is CRLF, a
lone LF, or a lone CR.  Returns the broken-off lines in order, and the
leftover characters after the last break. -/
def splitBreaks : List Char → List (List Char) × List Char
  | [] => ([], [])
  | '\r' :: '\n' :: rest =>
      let r := splitBreaks rest
      ([] :: r.1, r.2)
  | '\r' :: rest =>
      let r := splitBreaks rest
      ([] :: r.1, r.2)
  | '\n' :: rest =>
      let r := splitBreaks rest
      ([] :: r.1, r.2)
  | c :: rest =>
      match splitBreaks rest with
      | (l :: ls, lf) => ((c :: l) :: ls, lf)
      | ([], lf) => ([], c :: lf)

/-- All line events readline emits for a fully delivered chunk: the
broken-off lines, plus — as documented for the stream-end case — the
leftover unterminated segment, when it is non-empty. -/
def emitLines (bs : List Char) : List (List Char) :=
  let r := splitBreaks bs
  if r.2.isEmpty then r.1 else r.1 ++ [r.2]

/-- Only the terminator-delimited lines of a chunk.  Modelled from the
spec: the ordered sequence of complete lines, a trailing partial line
without a terminator not being emitted.  Used to compare the spec's
splitting with the source's. -/
def specCompleteLines (bs : List Char) : List (List Char) :=
  (splitBreaks bs).1

/-- One notification cycle of the fs.watchFile callback of start
(source lines 537-553): if the current size does not exceed the previous
one, return without reading; otherwise read the byte range from the
previous size to the current size (inclusive end) and split it into
lines.  The next cycle's previous stat size is the current size in
either case. -/
def tailStep (content : List Char) (st : TailState) (currSize : Nat) :
    CycleResult :=
  if currSize ≤ st.lastKnownSize then ⟨⟨currSize⟩, none, []⟩
  else
    ⟨⟨currSize⟩, some (st.lastKnownSize, currSize),
      emitLines (readRange st.lastKnownSize currSize content)⟩

/-- Stub API that always fails, for concrete instantiations. -/
def failApi : Api := fun _ _ _ => Except.error "boom"

/-- Stub API that reports English and prefixes the text, for concrete
instantiations. -/
def enApi : Api := fun t _ _ => Except.ok ⟨"T-" ++ t, some "EN"⟩

/-- Stub API that reports Ukrainian on the detection pass and returns a
distinct result on the forced-Russian pass, for concrete
instantiations. -/
def ruApi : Api := fun _ _ fromLang =>
  match fromLang with
  | none => Except.ok ⟨"first", some "uk"⟩
  | some _ => Except.ok ⟨"forced", some "uk"⟩

theorem smartTranslate_events_no_print (api : Api) (text toLang : String) :
    ((smartTranslate api text toLang).2).filter isPrintTrans = [] := by
  unfold smartTranslate
  cases h : api text toLang none with
  | error e => simp [isPrintTrans]
  | ok res =>
    by_cases hb : (PREFER_RU_FOR_CYRILLIC && cyrillicTest text &&
        (jsToLower (res.fromIso.getD "") != "ru")) = true
    · simp only [hb, if_true]
      cases h2 : api text toLang (some "ru") <;> simp [isPrintTrans]
    · simp only [Bool.not_eq_true] at hb
      simp [hb, isPrintTrans]

/-- C1: smartTranslate never throws or rejects to its caller — it is a
total function for every API oracle; when the external translate call
fails with any error, the single API call is followed by a logged
warning and the returned result carries the original input text
unchanged with detected language "unknown" (and no forced language), so
processing continues with a well-formed result. -/
theorem smartTranslate_failure_fallback (api : Api) (text toLang e : String)
    (h : api text toLang none = Except.error e) :
    smartTranslate api text toLang =
      (⟨text, some "unknown", none⟩,
       [Ev.apiCall text toLang none,
        Ev.logWarn ("Translation failed: " ++ e)]) := by
  unfold smartTranslate
  rw [h]

theorem smartTranslate_failure_fallback_w :
    smartTranslate failApi "hola" "en" =
      (⟨"hola", some "unknown", none⟩,
       [Ev.apiCall "hola" "en" none,
        Ev.logWarn "Translation failed: boom"]) :=
  smartTranslate_failure_fallback failApi "hola" "en" "boom" rfl

/-- C2: for every input text containing a Cyrillic-block character whose
first-call detected language, lowercased, is not "ru", smartTranslate
performs exactly the detection call followed by a second call forcing
source language "ru"; if the second call succeeds its result is returned
marked with forcedFrom = "ru", and if it fails the first call's result
is returned unchanged. -/
theorem smartTranslate_cyrillic_retry (api : Api) (text toLang : String)
    (res : ApiRes) (h1 : api text toLang none = Except.ok res)
    (h2 : cyrillicTest text = true)
    (h3 : jsToLower (res.fromIso.getD "") ≠ "ru") :
    (smartTranslate api text toLang).2 =
      [Ev.apiCall text toLang none, Ev.apiCall text toLang (some "ru")] ∧
    (∀ forced : ApiRes, api text toLang (some "ru") = Except.ok forced →
      (smartTranslate api text toLang).1 =
        ⟨forced.text, forced.fromIso, some "ru"⟩) ∧
    (∀ e : String, api text toLang (some "ru") = Except.error e →
      (smartTranslate api text toLang).1 = ⟨res.text, res.fromIso, none⟩) := by
  have hb : (PREFER_RU_FOR_CYRILLIC && cyrillicTest text &&
      (jsToLower (res.fromIso.getD "") != "ru")) = true := by
    simp [PREFER_RU_FOR_CYRILLIC, h2, bne_iff_ne, h3]
  refine ⟨?_, ?_, ?_⟩
  · unfold smartTranslate
    rw [h1]
    simp only [hb, if_true]
    cases h4 : api text toLang (some "ru") <;> rfl
  · intro forced h4
    unfold smartTranslate
    rw [h1]
    simp only [hb, if_true]
    rw [h4]
  · intro e h4
    unfold smartTranslate
    rw [h1]
    simp only [hb, if_true]
    rw [h4]

theorem smartTranslate_cyrillic_retry_w :
    (smartTranslate ruApi "привет" "en").2 =
      [Ev.apiCall "привет" "en" none, Ev.apiCall "привет" "en" (some "ru")] ∧
    (smartTranslate ruApi "привет" "en").1 = ⟨"forced", some "uk", some "ru"⟩ :=
  ⟨(smartTranslate_cyrillic_retry ruApi "привет" "en" ⟨"first", some "uk"⟩
      rfl (by decide) (by decide)).1,
   (smartTranslate_cyrillic_retry ruApi "привет" "en" ⟨"first", some "uk"⟩
      rfl (by decide) (by decide)).2.1 ⟨"forced", some "uk"⟩ rfl⟩

/-- C3 counterexample: when the file grows by bytes that do not end with
a line terminator, the cycle emits the trailing unterminated segment as
a line (readline flushes it at stream end), whereas the claim's
complete-lines-only splitting would emit nothing — so the claim that the
emitted lines are exactly the complete lines is false for this cycle. -/
theorem tailStep_partial_line_cex :
    (tailStep ['a', 'b', 'c'] ⟨0⟩ 3).lines = [['a', 'b', 'c']] ∧
    specCompleteLines (readRange 0 3 ['a', 'b', 'c']) = [] := by decide

/-- C3 (amended): for a cycle where the watched file grows from size S
to size S+N, the read request is the byte range from S to S+N with
inclusive upper bound, which delivers exactly the appended bytes
[S, S+N); the cycle emits the readline splitting of those bytes in
order, a trailing unterminated segment being emitted as a final line as
well; and the last known size used by the next cycle becomes S+N. -/
theorem tailStep_growth (content : List Char) (S N : Nat)
    (hlen : content.length = S + N) (hN : 0 < N) :
    readRange S (S + N) content = content.drop S ∧
    tailStep content ⟨S⟩ (S + N) =
      ⟨⟨S + N⟩, some (S, S + N), emitLines (content.drop S)⟩ := by
  have hr : readRange S (S + N) content = content.drop S := by
    unfold readRange
    apply List.take_of_length_le
    rw [List.length_drop, hlen]
    omega
  have hle : ¬ (S + N ≤ S) := by omega
  exact ⟨hr, by simp [tailStep, hle, hr]⟩

theorem tailStep_growth_w :
    readRange 0 2 ['x', '\n'] = ['x', '\n'] ∧
    tailStep ['x', '\n'] ⟨0⟩ 2 = ⟨⟨2⟩, some (0, 2), [['x']]⟩ :=
  tailStep_growth ['x', '\n'] 0 2 rfl (by decide)

/-- C4 counterexample: after a cycle observing size 2 while the last
known size was 5 (truncation), the last known size becomes the observed
size 2, not 0, and the next growth to size 4 is read from offset 2, not
from offset 0 — so the reset-to-zero part of the claim is false. -/
theorem tailStep_truncation_cex :
    tailStep ['a', 'b'] ⟨5⟩ 2 = ⟨⟨2⟩, none, []⟩ ∧
    (tailStep ['a', 'b'] ⟨5⟩ 2).newState ≠ ⟨0⟩ ∧
    (tailStep ['a', 'b', 'c', 'd']
      ((tailStep ['a', 'b'] ⟨5⟩ 2).newState) 4).readReq = some (2, 4) := by
  decide

/-- C4 (amended): whenever the observed size is smaller than the last
known size, the tailer issues no read request at all (hence no
negative-length read) and emits no lines for that cycle, and the last
known size becomes the observed smaller size — not 0 — so the next
growth is read from that offset; and while the observed size does not
decrease, the last known size is monotonically non-decreasing. -/
theorem tailStep_truncation (content : List Char) (st : TailState)
    (curr : Nat) :
    (curr < st.lastKnownSize →
      tailStep content st curr = ⟨⟨curr⟩, none, []⟩) ∧
    (st.lastKnownSize ≤ curr →
      st.lastKnownSize ≤ (tailStep content st curr).newState.lastKnownSize) := by
  constructor
  · intro h
    simp [tailStep, Nat.le_of_lt h]
  · intro h
    unfold tailStep
    split <;> simpa

theorem tailStep_truncation_w :
    tailStep ['a'] ⟨3⟩ 1 = ⟨⟨1⟩, none, []⟩ ∧
    (⟨2⟩ : TailState).lastKnownSize ≤
      (tailStep ['a'] ⟨2⟩ 5).newState.lastKnownSize :=
  ⟨(tailStep_truncation ['a'] ⟨3⟩ 1).1 (by decide),
   (tailStep_truncation ['a'] ⟨2⟩ 5).2 (by decide)⟩

/-- C5: for every handled chat event with a non-empty message, if the
resolved source language of the translation result (the forced language
when present, otherwise the detected one), compared case-insensitively,
equals the configured target language, no translated line is printed;
otherwise exactly one translated line is printed, carrying the team, the
sender, the human-readable source-language name, the uppercased target
code, and the translated text. -/
theorem autoTranslate_suppression (api : Api)
    (team sender message target : String) (hm : message ≠ "") :
    (resolvedIso (smartTranslate api message target).1 = jsToLower target →
      (autoTranslateToConsole api team sender message target).filter
        isPrintTrans = []) ∧
    (resolvedIso (smartTranslate api message target).1 ≠ jsToLower target →
      (autoTranslateToConsole api team sender message target).filter
          isPrintTrans =
        [Ev.printTrans team sender
          (originalLangReadable (smartTranslate api message target).1)
          (jsToUpper target) (smartTranslate api message target).1.text]) := by
  constructor
  · intro hiso
    simp [autoTranslateToConsole, AUTO_TRANSLATE, hm, hiso,
      smartTranslate_events_no_print]
  · intro hiso
    simp [autoTranslateToConsole, AUTO_TRANSLATE, hm, hiso,
      List.filter_append, smartTranslate_events_no_print, isPrintTrans]

theorem autoTranslate_suppression_w :
    (autoTranslateToConsole enApi "T" "Bob" "hi" "en").filter
      isPrintTrans = [] ∧
    (autoTranslateToConsole enApi "CT" "Ann" "hi" "de").filter
      isPrintTrans = [Ev.printTrans "CT" "Ann" "English" "DE" "T-hi"] :=
  ⟨(autoTranslate_suppression enApi "T" "Bob" "hi" "en" (by decide)).1
      (by decide),
   (autoTranslate_suppression enApi "CT" "Ann" "hi" "de" (by decide)).2
      (by decide)⟩

/-- C6: classifying the line "[T]  Player123: hello world" yields the
chat event with team "T", sender "Player123" and message
"hello world". -/
theorem classify_example :
    classify "[T]  Player123: hello world" =
      some ⟨"T", "Player123", "hello world"⟩ := by decide

/-- C7 counterexample: the line "[T]  : hi" matches the pattern with a
whitespace-only sender capture, so its trimmed sender is empty, yet an
event is produced and the raw chat line is printed — the claim that such
lines are rejected with nothing printed is false. -/
theorem classify_empty_sender_cex :
    classify "[T]  : hi" = some ⟨"T", "", "hi"⟩ ∧
    (handleLine failApi "en" "[T]  : hi").head? =
      some (Ev.printChat "T" "" "hi") := by decide

/-- C7 (amended): lines whose sender or message is empty after trimming
are not rejected — whenever the pattern matches, an event with the
trimmed (possibly empty) captures is produced and the raw chat line is
printed. -/
theorem classify_no_reject (api : Api) (target line : String) (t : String)
    (p m : List Char) (h : findMatch line.toList = some (t, p, m)) :
    classify line = some ⟨t, jsTrimStr p, jsTrimStr m⟩ ∧
    handleLine api target line ≠ [] := by
  have h' : findMatch line.data = some (t, p, m) := h
  have hc : classify line = some ⟨t, jsTrimStr p, jsTrimStr m⟩ := by
    simp [classify, h']
  exact ⟨hc, by simp [handleLine, hc]⟩

theorem classify_no_reject_w :
    classify "[ALL]  :   " = some ⟨"ALL", "", ""⟩ ∧
    handleLine failApi "en" "[ALL]  :   " ≠ [] :=
  classify_no_reject failApi "en" "[ALL]  :   " "ALL" [' '] [' ', ' ']
    (by decide)

/-- C8: a raw line on which the pattern match fails produces no event
and no observable output at all — the line is silently ignored, and
handleLine (a total function) raises no error. -/
theorem handleLine_ignores_nonchat (api : Api) (target line : String)
    (h : classify line = none) : handleLine api target line = [] := by
  simp [handleLine, h]

theorem handleLine_ignores_nonchat_w :
    handleLine failApi "en" "10/26 Loading map" = [] :=
  handleLine_ignores_nonchat failApi "en" "10/26 Loading map" (by decide)

/-- C9: for every classified chat event, the events of handleLine start
with the printed raw chat line, followed by everything
autoTranslateToConsole does (its API calls, warnings and translated
line) — so the raw line is emitted synchronously before the translation
request starts, and a translation line can never precede the raw
line. -/
theorem handleLine_raw_first (api : Api) (target line : String)
    (ev : ChatEvent) (h : classify line = some ev) :
    handleLine api target line =
      Ev.printChat ev.team ev.sender ev.message ::
        autoTranslateToConsole api ev.team ev.sender ev.message target := by
  simp [handleLine, h]

theorem handleLine_raw_first_w :
    handleLine failApi "en" "[ALL] Juan: hola" =
      Ev.printChat "ALL" "Juan" "hola" ::
        autoTranslateToConsole failApi "ALL" "Juan" "hola" "en" :=
  handleLine_raw_first failApi "en" "[ALL] Juan: hola"
    ⟨"ALL", "Juan", "hola"⟩ (by decide)

/-- C10: for an event whose message is empty, autoTranslateToConsole
returns immediately — no API invocation and no printed line — while for
a matched line with empty trimmed message handleLine still prints the
raw chat line and nothing else. -/
theorem autoTranslate_empty_message (api : Api)
    (team sender target line : String) (ev : ChatEvent) :
    autoTranslateToConsole api team sender "" target = [] ∧
    (classify line = some ev → ev.message = "" →
      handleLine api target line =
        [Ev.printChat ev.team ev.sender ev.message]) := by
  constructor
  · simp [autoTranslateToConsole, AUTO_TRANSLATE]
  · intro h hm
    simp [handleLine, h, autoTranslateToConsole, AUTO_TRANSLATE, hm]

theorem autoTranslate_empty_message_w :
    autoTranslateToConsole failApi "CT" "Bob" "" "en" = [] ∧
    handleLine failApi "en" "[CT] Bob:   " = [Ev.printChat "CT" "Bob" ""] :=
  ⟨(autoTranslate_empty_message failApi "CT" "Bob" "en" "[CT] Bob:   "
      ⟨"CT", "Bob", ""⟩).1,
   (autoTranslate_empty_message failApi "CT" "Bob" "en" "[CT] Bob:   "
      ⟨"CT", "Bob", ""⟩).2 (by decide) rfl⟩
